import Mathlib

/-!
Shallow embedding of the inspection-report web app (src/app.py).

Spreadsheet rows are association lists from column names to cells; a cell is
either a string, a missing/null marker (pandas NaN / NaT), or a parsed
timestamp.  Network access and pandas string-to-datetime parsing are modelled
as explicit oracles passed to every function that performs them.
-/

set_option maxHeartbeats 1000000

/-- Calendar date (the value of `datetime.date`). -/
structure Date where
  year : Nat
  month : Nat
  day : Nat
deriving DecidableEq

/-- Timestamp with a time-of-day component (the value of `pd.Timestamp`). -/
structure DateTime where
  year : Nat
  month : Nat
  day : Nat
  hour : Nat
  minute : Nat
deriving DecidableEq

/-- The calendar-date part of a timestamp (`Timestamp.date()` / `.dt.date`). -/
def dateOf (d : DateTime) : Date :=
  ⟨d.year, d.month, d.day⟩

/-- One scalar cell of a spreadsheet row: a string, the pandas null marker
(NaN/NaT), or a parsed timestamp. -/
inductive Cell where
  | str (s : String)
  | nan
  | date (d : DateTime)
deriving DecidableEq

/-- A spreadsheet row: association list from column name to cell
(`pd.Series`). -/
abbrev Row := List (String × Cell)

/-- `Series.get(key)`: the first cell stored under the column name, if any. -/
def rowGet (r : Row) (k : String) : Option Cell :=
  (r.find? (fun p => p.1 = k)).map (fun p => p.2)

/-- `Series.get(key, default)`. -/
def rowGetD (r : Row) (k : String) (dflt : Cell) : Cell :=
  (rowGet r k).getD dflt

/-- Column assignment `df[k] = v` for one row: replaces any existing cell. -/
def rowSet (r : Row) (k : String) (v : Cell) : Row :=
  (k, v) :: r.filter (fun p => p.1 ≠ k)

/-- Python truthiness of a cell (`""` is falsy; NaN and timestamps are truthy). -/
def cellTruthy : Cell → Bool
  | Cell.str s => !(s = "")
  | Cell.nan => true
  | Cell.date _ => true

/-- Two-digit zero-padded rendering of a number (strftime `%d`, `%m`). -/
def pad2 (n : Nat) : String :=
  if n < 10 then "0" ++ Nat.repr n else Nat.repr n

/-- Four-digit zero-padded rendering of a number (`date.isoformat` year). -/
def pad4 (n : Nat) : String :=
  if n < 10 then "000" ++ Nat.repr n
  else if n < 100 then "00" ++ Nat.repr n
  else if n < 1000 then "0" ++ Nat.repr n
  else Nat.repr n

/-- `str(datetime.date(...))`: ISO `YYYY-MM-DD`. -/
def isoDate (d : Date) : String :=
  pad4 d.year ++ "-" ++ pad2 d.month ++ "-" ++ pad2 d.day

/-- `Timestamp.strftime("%d/%m/%Y")`. -/
def formatDMY (d : DateTime) : String :=
  pad2 d.day ++ "/" ++ pad2 d.month ++ "/" ++ Nat.repr d.year

/-- `str(Timestamp)` rendering, used only when a timestamp cell is coerced to
a string. -/
def tsStr (d : DateTime) : String :=
  isoDate (dateOf d) ++ " " ++ pad2 d.hour ++ ":" ++ pad2 d.minute ++ ":00"

/-- `str(cell)`: NaN renders as `"nan"`. -/
def pyStr : Cell → String
  | Cell.str s => s
  | Cell.nan => "nan"
  | Cell.date d => tsStr d

/-- `str(cell or "")`: the Python `or` falls through to `""` only when the
cell is falsy (the empty string); NaN is truthy and renders as `"nan"`. -/
def pyStrOrEmpty (c : Cell) : String :=
  if cellTruthy c then pyStr c else ""

/-- Python whitespace for `str.strip()`. -/
def isSpaceChar (c : Char) : Bool :=
  c = ' ' || c = '\t' || c = '\n' || c = '\r' || c = '\x0b' || c = '\x0c'

/-- `str.strip()`. -/
def pyStrip (s : String) : String :=
  String.mk (((s.toList.dropWhile isSpaceChar).reverse.dropWhile isSpaceChar).reverse)

/-- `str.split(sep)` for a one-character separator, on character lists. -/
def splitOnChar (c : Char) : List Char → List (List Char)
  | [] => [[]]
  | x :: xs =>
    let r := splitOnChar c xs
    if x = c then [] :: r
    else
      match r with
      | h :: t => (x :: h) :: t
      | [] => [[x]]

/-- `str.split(sep)` for a one-character separator. -/
def pySplit (sep : Char) (s : String) : List String :=
  (splitOnChar sep s.toList).map String.mk

/-- ASCII lower-casing of one character. -/
def lowerChar (c : Char) : Char :=
  if 'A' ≤ c ∧ c ≤ 'Z' then Char.ofNat (c.toNat + 32) else c

/-- `str.lower()`. -/
def pyLower (s : String) : String :=
  String.mk (s.toList.map lowerChar)

/-- `str.replace(" ", "_")`: a single-character replacement is a character
map. -/
def replaceSpaces (s : String) : String :=
  String.mk (s.toList.map (fun c => if c = ' ' then '_' else c))

/-- `pre` is a leading substring of `s` (`str.startswith`). -/
def leadMatch : List Char → List Char → Bool
  | [], _ => true
  | _ :: _, [] => false
  | a :: as, b :: bs => a == b && leadMatch as bs

/-- `s.startswith(pre)` on strings. -/
def strLeadMatch (pre s : String) : Bool :=
  leadMatch pre.toList s.toList

/-- The first split of `l` at separator `c`: `some (before, after)` when `c`
occurs, with `before` the (separator-free) segment in front of the first
occurrence. -/
def splitFirst (c : Char) : List Char → Option (List Char × List Char)
  | [] => none
  | x :: xs =>
    if x = c then some ([], xs)
    else
      match splitFirst c xs with
      | some (a, b) => some (x :: a, b)
      | none => none

/-- `parse_site_name` (src/app.py:52): split `zone-unit-sitename` at the
first two hyphens; fewer than two hyphens yields empty zone/unit and the
stripped input; non-string input yields three empty strings. -/
def parse_site_name : Cell → String × String × String
  | Cell.str raw =>
    match splitFirst '-' raw.toList with
    | none => ("", "", pyStrip raw)
    | some (p0, rest) =>
      match splitFirst '-' rest with
      | none => ("", "", pyStrip raw)
      | some (p1, p2) =>
        (pyStrip (String.mk p0), pyStrip (String.mk p1), pyStrip (String.mk p2))
  | _ => ("", "", "")

/-- Characters admitted by the regex class `[A-Za-z0-9_-]`. -/
def isIdChar (c : Char) : Bool :=
  c.isAlphanum || c = '_' || c = '-'

/-- Match of the regex `id=([A-Za-z0-9_-]+)` anchored at the head of the
list: the literal `id=` followed by a non-empty maximal run of id characters. -/
def idAt (l : List Char) : Option (List Char) :=
  match l with
  | 'i' :: 'd' :: '=' :: tail =>
    if tail.takeWhile isIdChar = [] then none else some (tail.takeWhile isIdChar)
  | _ => none

/-- `re.search` of `id=([A-Za-z0-9_-]+)`: leftmost anchored match. -/
def searchIdEq : List Char → Option (List Char)
  | [] => none
  | c :: rest =>
    match idAt (c :: rest) with
    | some run => some run
    | none => searchIdEq rest

/-- Match of the regex `/d/([A-Za-z0-9_-]+)/` anchored at the head of the
list: `/d/`, a non-empty maximal run of id characters, then `/`. -/
def slashDAt (l : List Char) : Option (List Char) :=
  match l with
  | '/' :: 'd' :: '/' :: tail =>
    if tail.takeWhile isIdChar = [] then none
    else
      match tail.dropWhile isIdChar with
      | '/' :: _ => some (tail.takeWhile isIdChar)
      | _ => none
  | _ => none

/-- `re.search` of `/d/([A-Za-z0-9_-]+)/`: leftmost anchored match. -/
def searchSlashD : List Char → Option (List Char)
  | [] => none
  | c :: rest =>
    match slashDAt (c :: rest) with
    | some run => some run
    | none => searchSlashD rest

/-- `extract_drive_file_id` (src/app.py:66): try `id=<id>` first, then
`/d/<id>/`, else the empty string. -/
def extract_drive_file_id (url : String) : String :=
  match searchIdEq url.toList with
  | some run => String.mk run
  | none =>
    match searchSlashD url.toList with
    | some run => String.mk run
    | none => ""

/-- The fixed export-download URL built from a file id (src/app.py:83). -/
def driveDownloadUrl (fid : String) : String :=
  "https://drive.google.com/uc?export=download&id=" ++ fid

/-- An HTTP response: status code, declared content type and body bytes. -/
structure HttpResponse where
  status : Nat
  contentType : String
  body : List Nat
deriving DecidableEq

/-- Outcome of one `requests.get`: a response, or a raised network/protocol
exception. -/
inductive FetchResult where
  | ok (r : HttpResponse)
  | exc
deriving DecidableEq

/-- The network oracle: what `requests.get` returns for each URL. -/
abbrev Fetcher := String → FetchResult

/-- `download_drive_image` (src/app.py:78): extract a file id, fetch the
export-download URL, and return the body only on status 200 with an
`image/` content type; every failure (no id, non-200, wrong content type,
exception) yields `none`. -/
def download_drive_image (fetch : Fetcher) (url : String) : Option (List Nat) :=
  if extract_drive_file_id url = "" then none
  else
    match fetch (driveDownloadUrl (extract_drive_file_id url)) with
    | FetchResult.exc => none
    | FetchResult.ok r =>
      if r.status == 200 && strLeadMatch "image/" r.contentType then some r.body
      else none

/-- The pandas string-to-datetime oracle: what `pd.to_datetime` yields on a
single string (`none` models a parse failure / NaT under coercion). -/
abbrev DTParser := String → Option DateTime

/-- One element of `pd.to_datetime(column, errors="coerce")`: strings go
through the parser (failure gives NaT), NaN gives NaT, timestamps pass
through. -/
def parsedCellOf (parseDT : DTParser) : Cell → Cell
  | Cell.str s =>
    match parseDT s with
    | some d => Cell.date d
    | none => Cell.nan
  | Cell.nan => Cell.nan
  | Cell.date d => Cell.date d

/-- `df["Date_parsed"] = pd.to_datetime(df["Date"], errors="coerce")` for one
row. -/
def addParsed (parseDT : DTParser) (r : Row) : Row :=
  rowSet r "Date_parsed" (parsedCellOf parseDT (rowGetD r "Date" (Cell.str "")))

/-- The row-selection test `df["Date_parsed"].dt.date == target_date` for one
(augmented) row: NaT never equals a date. -/
def parsedRowKeep (target : Date) (r : Row) : Bool :=
  match rowGet r "Date_parsed" with
  | some (Cell.date dt) => decide (dateOf dt = target)
  | _ => false

/-- The date filter of `index`/`preview` (src/app.py:234 and 327): parse the
`Date` column and keep the rows whose parsed calendar date equals the target. -/
def filter_by_date (parseDT : DTParser) (rows : List Row) (target : Date) : List Row :=
  (rows.map (addParsed parseDT)).filter (parsedRowKeep target)

/-- Whether a row passes the date filter, phrased on the original row. -/
def rowMatchesDate (parseDT : DTParser) (target : Date) (r : Row) : Bool :=
  match parsedCellOf parseDT (rowGetD r "Date" (Cell.str "")) with
  | Cell.date dt => decide (dateOf dt = target)
  | _ => false

/-- The render context built from one row (the dict of
`build_context_from_row`, src/app.py:105). -/
structure Ctx where
  zone : Cell
  unit_code : Cell
  site_name : Cell
  date : Cell
  time : Cell
  attendance_register : Cell
  handling_register : Cell
  material_register : Cell
  grooming : Cell
  alertness : Cell
  post_discipline : Cell
  overall_rating : Cell
  observation : Cell
  inspected_by : Cell
deriving DecidableEq

/-- The normalization loop of `build_context_from_row`: `pd.isna(v)` (NaN)
becomes the empty string, all other values stay. -/
def normCell : Cell → Cell
  | Cell.nan => Cell.str ""
  | c => c

/-- The `date` context value (src/app.py:110-118): a present, non-null
pre-parsed timestamp is formatted `DD/MM/YYYY`; a pre-parsed string is fed to
`pd.to_datetime`, falling back on failure; otherwise fall back to
`str(row.get("Date", "") or "")`. -/
def formattedDate (parseDT : DTParser) (row : Row) : String :=
  match rowGet row "Date_parsed" with
  | some (Cell.date d) => formatDMY d
  | some (Cell.str s) =>
    match parseDT s with
    | some d => formatDMY d
    | none => pyStrOrEmpty (rowGetD row "Date" (Cell.str ""))
  | some Cell.nan => pyStrOrEmpty (rowGetD row "Date" (Cell.str ""))
  | none => pyStrOrEmpty (rowGetD row "Date" (Cell.str ""))

/-- `build_context_from_row` (src/app.py:105): site-name split, date
formatting, verbatim copies of the named columns, and NaN normalization. -/
def build_context_from_row (parseDT : DTParser) (row : Row) : Ctx :=
  let raw_site := rowGetD row "Site Name" (Cell.str "")
  let parsed := parse_site_name raw_site
  { zone := normCell (Cell.str parsed.1)
    unit_code := normCell (Cell.str parsed.2.1)
    site_name := normCell (if parsed.2.2 = "" then raw_site else Cell.str parsed.2.2)
    date := normCell (Cell.str (formattedDate parseDT row))
    time := normCell (rowGetD row "Time" (Cell.str ""))
    attendance_register :=
      normCell (rowGetD row "Documentation Check [Attendance Register]" (Cell.str ""))
    handling_register :=
      normCell (rowGetD row "Documentation Check [Handling / Taking Over Register]" (Cell.str ""))
    material_register :=
      normCell (rowGetD row "Documentation Check [Visitor Log Register]" (Cell.str ""))
    grooming := normCell (rowGetD row "Performance Check [Grooming]" (Cell.str ""))
    alertness := normCell (rowGetD row "Performance Check [Alertness]" (Cell.str ""))
    post_discipline := normCell (rowGetD row "Performance Check [Post Discipline]" (Cell.str ""))
    overall_rating := normCell (rowGetD row "Performance Check [Overall Rating]" (Cell.str ""))
    observation := normCell (rowGetD row "Observation" (Cell.str ""))
    inspected_by := normCell (rowGetD row "Inspected By" (Cell.str "")) }

/-- The recognized output fields of the render context. -/
def recognizedFields : List String :=
  ["zone", "unit_code", "site_name", "date", "time", "attendance_register",
   "handling_register", "material_register", "grooming", "alertness",
   "post_discipline", "overall_rating", "observation", "inspected_by"]

/-- Lookup of a context field by its name. -/
def ctxGet (c : Ctx) : String → Option Cell
  | "zone" => some c.zone
  | "unit_code" => some c.unit_code
  | "site_name" => some c.site_name
  | "date" => some c.date
  | "time" => some c.time
  | "attendance_register" => some c.attendance_register
  | "handling_register" => some c.handling_register
  | "material_register" => some c.material_register
  | "grooming" => some c.grooming
  | "alertness" => some c.alertness
  | "post_discipline" => some c.post_discipline
  | "overall_rating" => some c.overall_rating
  | "observation" => some c.observation
  | "inspected_by" => some c.inspected_by
  | _ => none

/-- `str(row.get("Images", "") or "")` (src/app.py:146 and 182). -/
def imagesRawOf (row : Row) : String :=
  pyStrOrEmpty (rowGetD row "Images" (Cell.str ""))

/-- The cleaned image links of a row:
`[u.strip() for u in images_raw.split(",") if u.strip()]`. -/
def linksOf (row : Row) : List String :=
  ((pySplit ',' (imagesRawOf row)).map pyStrip).filter (fun u => !(u = ""))

/-- `url.split("?")[0].split(".")[-1].lower()` (src/app.py:155). -/
def extOf (url : String) : String :=
  pyLower (((pySplit '.' ((pySplit '?' url).headD "")).getLastD ""))

/-- The MIME label chosen for a preview image (src/app.py:156-161): decided
by the link extension alone, defaulting to `image/jpeg`. -/
def mimeFor (url : String) : String :=
  let ext := extOf url
  if ext = "jpg" || ext = "jpeg" then "image/jpeg"
  else if ext = "png" then "image/png"
  else "image/jpeg"

/-- An inline `data:` URI for the preview page: declared MIME type plus the
base64-carried raw bytes. -/
structure DataUri where
  mime : String
  payload : List Nat
deriving DecidableEq

/-- `get_image_data_uris_for_row` (src/app.py:145): download each link and
wrap the successes as data URIs labelled from the link extension. -/
def get_image_data_uris_for_row (fetch : Fetcher) (row : Row) : List DataUri :=
  (linksOf row).filterMap (fun url =>
    (download_drive_image fetch url).map (fun b => DataUri.mk (mimeFor url) b))

/-- The image-format oracle: whether the docx library recognizes the bytes as
an image (`UnrecognizedImageError` when false). -/
abbrev Recognizer := List Nat → Bool

/-- The inline images embedded for one row (src/app.py:185-193): each
downloaded link whose bytes the docx library recognizes; failures of either
step skip just that link. -/
def inlineImagesOf (fetch : Fetcher) (recognize : Recognizer) (row : Row) : List (List Nat) :=
  (linksOf row).filterMap (fun url =>
    match download_drive_image fetch url with
    | some b => if recognize b then some b else none
    | none => none)

/-- Where the rendering template came from. -/
inductive TemplateSrc where
  | fromBytes (b : List Nat)
  | fromPath (p : String)
deriving DecidableEq

/-- A rendered document: the template merged with the row context and the
embedded images (the bytes written by `tpl.save`). -/
structure RenderedDoc where
  src : TemplateSrc
  ctx : Ctx
  images : List (List Nat)
deriving DecidableEq

/-- The one exception `render_docx_row` raises itself. -/
inductive RenderError where
  | templateNotFound
deriving DecidableEq

/-- Python truthiness of the optional uploaded template bytes (`b""` is
falsy). -/
def tbTruthy : Option (List Nat) → Bool
  | none => false
  | some b => !b.isEmpty

/-- `render_docx_row` (src/app.py:171): uploaded bytes take precedence; a
missing or non-existent template path raises; otherwise the context and the
surviving inline images are merged into the template. -/
def render_docx_row (fetch : Fetcher) (recognize : Recognizer) (parseDT : DTParser)
    (row : Row) (tb : Option (List Nat)) (tp : Option String)
    (fexists : String → Bool) : Except RenderError RenderedDoc :=
  if tbTruthy tb then
    Except.ok
      ⟨TemplateSrc.fromBytes (tb.getD []), build_context_from_row parseDT row,
        inlineImagesOf fetch recognize row⟩
  else
    match tp with
    | none => Except.error RenderError.templateNotFound
    | some p =>
      if p = "" then Except.error RenderError.templateNotFound
      else if fexists p then
        Except.ok
          ⟨TemplateSrc.fromPath p, build_context_from_row parseDT row,
            inlineImagesOf fetch recognize row⟩
      else Except.error RenderError.templateNotFound

/-- The archive entry name for one row (src/app.py:264-266):
`<date>_<site-slug>.docx`, the slug being the parsed site name with spaces
replaced by underscores, falling back to `Site`. -/
def zipName (target : Date) (r : Row) : String :=
  let st := (parse_site_name (rowGetD r "Site Name" (Cell.str "Site"))).2.2
  let slug := replaceSpaces (if st = "" then "Site" else st)
  isoDate target ++ "_" ++ slug ++ ".docx"

/-- The archive-building loop of the download path (src/app.py:260-267): one
named entry per row, in order; a raised exception aborts the whole batch. -/
def zip_entries (fetch : Fetcher) (recognize : Recognizer) (parseDT : DTParser)
    (tb : Option (List Nat)) (tp : Option String) (fexists : String → Bool)
    (rows : List Row) (target : Date) :
    Except RenderError (List (String × RenderedDoc)) :=
  match rows with
  | [] => Except.ok []
  | r :: rest =>
    match render_docx_row fetch recognize parseDT r tb tp fexists with
    | Except.error e => Except.error e
    | Except.ok d =>
      match zip_entries fetch recognize parseDT tb tp fexists rest target with
      | Except.error e => Except.error e
      | Except.ok es => Except.ok ((zipName target r, d) :: es)

/-- The distinct entry names surviving in a built archive (reading a zip by
name resolves duplicates). -/
def zipNamesOf (e : Except RenderError (List (String × RenderedDoc))) : List String :=
  match e with
  | Except.ok es => (es.map Prod.fst).eraseDups
  | Except.error _ => []

/-- Reading one entry of a built archive by name: with duplicate names the
last written entry wins. -/
def zipReadOf (e : Except RenderError (List (String × RenderedDoc)))
    (name : String) : Option RenderedDoc :=
  match e with
  | Except.ok es => ((es.filter (fun p => p.1 = name)).getLast?).map (fun p => p.2)
  | Except.error _ => none

/-- Observable outcome of the download-zip action. -/
inductive DownloadOutcome where
  | noRecords
  | templateMissing
  | crashed
  | archive (zipname : String) (entries : List (String × RenderedDoc))
deriving DecidableEq

/-- The download path of `index` (src/app.py:234-275), starting after the
sheet fetch: filter by date, resolve the template (uploaded bytes, else the
default `template.docx` whose absence is a reported error), then build the
archive. -/
def index_download (fetch : Fetcher) (recognize : Recognizer) (parseDT : DTParser)
    (fexists : String → Bool) (uploaded : Option (List Nat))
    (rows : List Row) (target : Date) : DownloadOutcome :=
  let fr := filter_by_date parseDT rows target
  if fr.isEmpty then DownloadOutcome.noRecords
  else
    let tb := uploaded
    let tp : Option String :=
      match uploaded with
      | some _ => none
      | none => some "template.docx"
    let build :=
      match zip_entries fetch recognize parseDT tb tp fexists fr target with
      | Except.ok es =>
        DownloadOutcome.archive ("night_checks_" ++ isoDate target ++ ".zip") es
      | Except.error _ => DownloadOutcome.crashed
    if tbTruthy tb then build
    else
      match tp with
      | none => DownloadOutcome.crashed
      | some p => if fexists p then build else DownloadOutcome.templateMissing

/-- Observable outcome of the preview route. -/
inductive PreviewOutcome where
  | noRecords
  | page (idx : Nat) (total : Nat) (ctx : Ctx) (uris : List DataUri)
      (has_prev has_next : Bool)
deriving DecidableEq

/-- The index clamp of `preview` (src/app.py:340-343): negatives to 0, then
overshoots to `total - 1`. -/
def clampLow (idx : Int) : Int :=
  if idx < 0 then 0 else idx

/-- Clamp a requested index into `[0, total - 1]` exactly as the route does. -/
def clampIdx (idx : Int) (total : Nat) : Nat :=
  (if (total : Int) - 1 < clampLow idx then (total : Int) - 1 else clampLow idx).toNat

/-- The preview route (src/app.py:300-358), starting after the sheet fetch:
filter by date, surface a no-records condition on an empty selection, else
serve the clamped row with its context, inline image data and navigation
flags. -/
def preview_route (parseDT : DTParser) (fetch : Fetcher) (rows : List Row)
    (target : Date) (idx : Int) : PreviewOutcome :=
  let fr := filter_by_date parseDT rows target
  if fr.isEmpty then PreviewOutcome.noRecords
  else
    let total := fr.length
    let i := clampIdx idx total
    let row := fr.getD i []
    PreviewOutcome.page i total (build_context_from_row parseDT row)
      (get_image_data_uris_for_row fetch row)
      (decide (0 < i)) (decide (i < total - 1))

/-- The missing-or-null condition for a source column of a row. -/
def missingOrNull (r : Row) (c : String) : Prop :=
  rowGet r c = none ∨ rowGet r c = some Cell.nan

/-- A network oracle on which every request raises. -/
def fetch0 : Fetcher := fun _ => FetchResult.exc

/-- A network oracle answering every request with a 200 PNG response. -/
def fetch1 : Fetcher := fun _ => FetchResult.ok ⟨200, "image/png", [9, 9]⟩

/-- An image-format oracle recognizing everything. -/
def rec0 : Recognizer := fun _ => true

/-- A datetime-parsing oracle on which every string fails. -/
def pd0 : DTParser := fun _ => none

/-- A datetime-parsing oracle parsing every string to 2024-03-05 09:30. -/
def pdHit : DTParser := fun _ => some ⟨2024, 3, 5, 9, 30⟩

/-- A file-existence oracle with no files. -/
def fx0 : String → Bool := fun _ => false

/-- A one-row sheet whose date matches under `pdHit`. -/
def rowsOne : List Row := [[("Date", Cell.str "2024-03-05")]]

/-- Target date used by the concrete batches. -/
def c1date : Date := ⟨2024, 3, 5⟩

/-- Concrete row: site `Alpha One`, observation `A`. -/
def c1rowA : Row := [("Site Name", Cell.str "Z-U1-Alpha One"), ("Observation", Cell.str "A")]

/-- Concrete row: site `Beta`. -/
def c1rowB : Row := [("Site Name", Cell.str "Z-U1-Beta"), ("Observation", Cell.str "A")]

/-- Concrete row: same site as `c1rowA`, observation `B`. -/
def c1rowA2 : Row := [("Site Name", Cell.str "Z-U1-Alpha One"), ("Observation", Cell.str "B")]

/-- Concrete row with one image link. -/
def c2row : Row := [("Images", Cell.str "https://a/b?id=xyz")]

/-- Concrete row with one extension-less image link. -/
def c10row : Row := [("Images", Cell.str "https://host/file?id=abc123")]

/-- Concrete URL carrying both id patterns. -/
def c7url : String := "https://h/d/zzz/x?id=aaa"

/-- Recovering the character list of a constructed string. -/
theorem toList_mk (l : List Char) : (String.mk l).toList = l := rfl

/-- A string built from a non-empty character list is non-empty. -/
theorem mk_ne_empty {l : List Char} (h : l ≠ []) : String.mk l ≠ "" := by
  intro he
  apply h
  simpa using congrArg String.toList he

/-- `splitFirst` at the first occurrence of the separator. -/
theorem splitFirst_append_not_mem (c : Char) (a b : List Char) (h : c ∉ a) :
    splitFirst c (a ++ c :: b) = some (a, b) := by
  induction a with
  | nil => simp [splitFirst]
  | cons x xs ih =>
    have hx : ¬(x = c) := fun hh => h (hh ▸ List.mem_cons_self x xs)
    have hxs : c ∉ xs := fun hm => h (List.mem_cons_of_mem _ hm)
    simp [splitFirst, hx, ih hxs]

/-- `splitFirst` finds nothing when the separator does not occur. -/
theorem splitFirst_none_of_not_mem (c : Char) (l : List Char) (h : c ∉ l) :
    splitFirst c l = none := by
  induction l with
  | nil => rfl
  | cons x xs ih =>
    have hx : ¬(x = c) := fun hh => h (hh ▸ List.mem_cons_self x xs)
    have hxs : c ∉ xs := fun hm => h (List.mem_cons_of_mem _ hm)
    simp [splitFirst, hx, ih hxs]

/-- A successful `splitFirst` decomposes its input at a separator-free head
segment. -/
theorem splitFirst_some_decomp (c : Char) (l : List Char) :
    ∀ a b, splitFirst c l = some (a, b) → l = a ++ c :: b ∧ c ∉ a := by
  induction l with
  | nil => intro a b h; cases h
  | cons x xs ih =>
    intro a b h
    unfold splitFirst at h
    by_cases hx : x = c
    · rw [if_pos hx] at h
      simp only [Option.some.injEq, Prod.mk.injEq] at h
      obtain ⟨rfl, rfl⟩ := h
      subst hx
      exact ⟨rfl, by simp⟩
    · rw [if_neg hx] at h
      rcases hs : splitFirst c xs with _ | ⟨a2, b2⟩
      · rw [hs] at h; cases h
      · rw [hs] at h
        simp only [Option.some.injEq, Prod.mk.injEq] at h
        obtain ⟨rfl, rfl⟩ := h
        obtain ⟨hd, hm⟩ := ih a2 b2 hs
        refine ⟨by rw [hd]; rfl, ?_⟩
        intro hmem
        rcases List.mem_cons.mp hmem with h1 | h1
        · exact hx h1.symm
        · exact hm h1

/-- C4 counterexample: on `"a -b-c"` the parser strips the segments, so the
zone is `"a"`, not the verbatim first hyphen segment `"a "`. -/
theorem c4_counterexample :
    parse_site_name (Cell.str "a -b-c") = ("a", "b", "c") ∧
    (("a" : String), ("b" : String), ("c" : String))
      ≠ (("a " : String), ("b" : String), ("c" : String)) := by
  decide

/-- C4 (amended): on a string with at least two hyphens the parser returns
the first segment, the second segment and the remainder, each stripped of
surrounding whitespace (interior hyphens of the remainder preserved); with
fewer than two hyphens it returns empty zone/unit and the stripped input;
non-string input yields three empty strings. -/
theorem c4_parse_amended :
    (∀ p0 p1 p2 : List Char, '-' ∉ p0 → '-' ∉ p1 →
       parse_site_name (Cell.str (String.mk (p0 ++ ('-' :: (p1 ++ ('-' :: p2))))))
         = (pyStrip (String.mk p0), pyStrip (String.mk p1), pyStrip (String.mk p2))) ∧
    (∀ raw : String, raw.toList.count '-' < 2 →
       parse_site_name (Cell.str raw) = ("", "", pyStrip raw)) ∧
    parse_site_name Cell.nan = ("", "", "") ∧
    (∀ d : DateTime, parse_site_name (Cell.date d) = ("", "", "")) := by
  refine ⟨?_, ?_, rfl, fun d => rfl⟩
  · intro p0 p1 p2 h0 h1
    simp only [parse_site_name, String.toList, toList_mk,
      splitFirst_append_not_mem '-' p0 (p1 ++ ('-' :: p2)) h0,
      splitFirst_append_not_mem '-' p1 p2 h1]
  · intro raw h
    rcases h2 : splitFirst '-' raw.toList with _ | ⟨p0, rest⟩
    · have h2d : splitFirst '-' raw.data = none := h2
      simp [parse_site_name, h2d]
    · obtain ⟨hdec, hnm⟩ := splitFirst_some_decomp '-' raw.toList p0 rest h2
      have hp0 : p0.count '-' = 0 := List.count_eq_zero.mpr hnm
      have hc : raw.toList.count '-' = p0.count '-' + (rest.count '-' + 1) := by
        rw [hdec, List.count_append, List.count_cons_self]
      have hr0 : rest.count '-' = 0 := by omega
      have hrnm : '-' ∉ rest := List.count_eq_zero.mp hr0
      have h3 : splitFirst '-' rest = none := splitFirst_none_of_not_mem '-' rest hrnm
      have h2d : splitFirst '-' raw.data = some (p0, rest) := h2
      simp [parse_site_name, h2d, h3]

/-- C4 witness: the amended parser facts at concrete inputs. -/
theorem c4_parse_amended_witness :
    parse_site_name
        (Cell.str (String.mk ("NZ".toList ++ ('-' :: ("U1".toList ++ ('-' :: "Main Site".toList))))))
      = (pyStrip (String.mk "NZ".toList), pyStrip (String.mk "U1".toList),
         pyStrip (String.mk "Main Site".toList)) ∧
    parse_site_name (Cell.str "ab") = ("", "", pyStrip "ab") ∧
    parse_site_name Cell.nan = ("", "", "") :=
  ⟨c4_parse_amended.1 "NZ".toList "U1".toList "Main Site".toList (by decide) (by decide),
   c4_parse_amended.2.1 "ab" (by decide),
   c4_parse_amended.2.2.1⟩

/-- A head match of `id=...` captures a non-empty run. -/
theorem idAt_ne_nil (l : List Char) (run : List Char) (h : idAt l = some run) :
    run ≠ [] := by
  unfold idAt at h
  split at h
  · split at h
    · cases h
    · next hne =>
      simp only [Option.some.injEq] at h
      subst h
      exact hne
  · cases h

/-- A head match of `/d/.../` captures a non-empty run. -/
theorem slashDAt_ne_nil (l : List Char) (run : List Char) (h : slashDAt l = some run) :
    run ≠ [] := by
  unfold slashDAt at h
  split at h
  · split at h
    · cases h
    · next hne =>
      split at h
      · simp only [Option.some.injEq] at h
        subst h
        exact hne
      · cases h
  · cases h

/-- Any match of the `id=` search is a non-empty run. -/
theorem searchIdEq_ne_nil (l : List Char) (run : List Char)
    (h : searchIdEq l = some run) : run ≠ [] := by
  induction l with
  | nil => cases h
  | cons c rest ih =>
    unfold searchIdEq at h
    rcases hA : idAt (c :: rest) with _ | r
    · rw [hA] at h
      exact ih h
    · rw [hA] at h
      simp only [Option.some.injEq] at h
      subst h
      exact idAt_ne_nil _ _ hA

/-- Any match of the `/d/.../` search is a non-empty run. -/
theorem searchSlashD_ne_nil (l : List Char) (run : List Char)
    (h : searchSlashD l = some run) : run ≠ [] := by
  induction l with
  | nil => cases h
  | cons c rest ih =>
    unfold searchSlashD at h
    rcases hA : slashDAt (c :: rest) with _ | r
    · rw [hA] at h
      exact ih h
    · rw [hA] at h
      simp only [Option.some.injEq] at h
      subst h
      exact slashDAt_ne_nil _ _ hA

/-- C7: the image downloader returns bytes exactly when a file id was
extracted, the response arrived with status 200 and an `image/` content
type, and those bytes are the response body; an id is extracted exactly when
one of the two patterns matches, the `id=` pattern taking precedence. -/
theorem c7_drive_download (fetch : Fetcher) (url : String) :
    (∀ bytes : List Nat, download_drive_image fetch url = some bytes ↔
       (extract_drive_file_id url ≠ "" ∧
        ∃ r : HttpResponse,
          fetch (driveDownloadUrl (extract_drive_file_id url)) = FetchResult.ok r ∧
          r.status = 200 ∧ strLeadMatch "image/" r.contentType = true ∧ r.body = bytes)) ∧
    (extract_drive_file_id url ≠ "" ↔
       ((searchIdEq url.toList).isSome ∨ (searchSlashD url.toList).isSome)) ∧
    (∀ run : List Char, searchIdEq url.toList = some run →
       extract_drive_file_id url = String.mk run) := by
  refine ⟨?_, ?_, ?_⟩
  · intro bytes
    by_cases hf : extract_drive_file_id url = ""
    · simp [download_drive_image, hf]
    · rcases hr : fetch (driveDownloadUrl (extract_drive_file_id url)) with r | _
      · by_cases hs : (r.status == 200 && strLeadMatch "image/" r.contentType) = true
        · simp only [Bool.and_eq_true, beq_iff_eq] at hs
          simp [download_drive_image, hf, hr, hs.1, hs.2]
        · simp only [Bool.and_eq_true, beq_iff_eq] at hs
          simp only [download_drive_image, if_neg hf, hr]
          rw [if_neg (by intro hcon; exact hs (by simpa using hcon))]
          constructor
          · intro hcon; cases hcon
          · rintro ⟨-, r2, hr2, h200, himg, -⟩
            injection hr2 with hr3
            subst hr3
            exact absurd ⟨h200, himg⟩ hs
      · simp [download_drive_image, hf, hr]
  · unfold extract_drive_file_id
    rcases h1 : searchIdEq url.toList with _ | run
    · rcases h2 : searchSlashD url.toList with _ | run2
      · simp
      · simp [mk_ne_empty (searchSlashD_ne_nil _ _ h2)]
    · simp [mk_ne_empty (searchIdEq_ne_nil _ _ h1)]
  · intro run h
    have h2 : searchIdEq url.data = some run := h
    simp [extract_drive_file_id, String.toList, h2]

/-- C7 witness: on a URL carrying both patterns, the `id=` pattern wins. -/
theorem c7_drive_download_witness :
    extract_drive_file_id c7url = String.mk "aaa".toList :=
  (c7_drive_download fetch0 c7url).2.2 "aaa".toList (by decide)

/-- The cell just assigned to a row is what lookup finds. -/
theorem rowGet_rowSet_self (r : Row) (k : String) (v : Cell) :
    rowGet (rowSet r k v) k = some v := by
  unfold rowGet rowSet
  rw [List.find?_cons_of_pos _ (by simp)]
  rfl

/-- C3: the date filter keeps exactly the rows (augmented with their parsed
date column) whose `Date` value parses to a timestamp on the target calendar
date; the decision depends only on the year, month and day of the parsed
value, and a row whose `Date` fails to parse is never kept. -/
theorem c3_date_filter (parseDT : DTParser) (rows : List Row) (target : Date) :
    filter_by_date parseDT rows target
      = (rows.filter (rowMatchesDate parseDT target)).map (addParsed parseDT) ∧
    ∀ r : Row, rowMatchesDate parseDT target r = true ↔
      ∃ dt : DateTime,
        parsedCellOf parseDT (rowGetD r "Date" (Cell.str "")) = Cell.date dt ∧
        dt.year = target.year ∧ dt.month = target.month ∧ dt.day = target.day := by
  constructor
  · have key : ∀ r : Row,
        parsedRowKeep target (addParsed parseDT r) = rowMatchesDate parseDT target r := by
      intro r
      unfold parsedRowKeep rowMatchesDate addParsed
      rw [rowGet_rowSet_self]
      rcases hp : parsedCellOf parseDT (rowGetD r "Date" (Cell.str "")) with s | _ | dt <;>
        simp [hp]
    unfold filter_by_date
    induction rows with
    | nil => rfl
    | cons r rest ih =>
      simp only [List.map_cons, List.filter_cons, key r]
      by_cases hm : rowMatchesDate parseDT target r = true
      · simp [hm, ih]
      · simp [hm, ih]
  · intro r
    unfold rowMatchesDate
    rcases hp : parsedCellOf parseDT (rowGetD r "Date" (Cell.str "")) with s | _ | dt
    · simp
    · simp
    · rcases target with ⟨ty, tm, td⟩
      simp [dateOf, Date.mk.injEq, DateTime.mk.injEq]

/-- C5: a present, valid pre-parsed date is rendered `DD/MM/YYYY` in the
context's `date` field; without a valid pre-parsed date the field falls back
to the raw `Date` column value coerced to a string, and to the empty string
when the `Date` column is absent. -/
theorem c5_date_format (parseDT : DTParser) (row : Row) :
    (∀ d : DateTime, rowGet row "Date_parsed" = some (Cell.date d) →
       (build_context_from_row parseDT row).date = Cell.str (formatDMY d)) ∧
    (∀ s d, rowGet row "Date_parsed" = some (Cell.str s) → parseDT s = some d →
       (build_context_from_row parseDT row).date = Cell.str (formatDMY d)) ∧
    ((rowGet row "Date_parsed" = none ∨ rowGet row "Date_parsed" = some Cell.nan ∨
        (∃ s, rowGet row "Date_parsed" = some (Cell.str s) ∧ parseDT s = none)) →
       (build_context_from_row parseDT row).date
         = Cell.str (pyStrOrEmpty (rowGetD row "Date" (Cell.str "")))) ∧
    (rowGet row "Date_parsed" = none → rowGet row "Date" = none →
       (build_context_from_row parseDT row).date = Cell.str "") := by
  refine ⟨?_, ?_, ?_, ?_⟩
  · intro d h
    simp [build_context_from_row, formattedDate, h, normCell]
  · intro s d h hp
    simp [build_context_from_row, formattedDate, h, hp, normCell]
  · rintro (h | h | ⟨s, h, hp⟩)
    · simp [build_context_from_row, formattedDate, h, normCell]
    · simp [build_context_from_row, formattedDate, h, normCell]
    · simp [build_context_from_row, formattedDate, h, hp, normCell]
  · intro h1 h2
    simp [build_context_from_row, formattedDate, h1, h2, rowGetD, pyStrOrEmpty,
      cellTruthy, pyStr, normCell]

/-- C5 witness: the date-field cases at concrete rows. -/
theorem c5_date_format_witness :
    (build_context_from_row pd0 [("Date_parsed", Cell.date ⟨2024, 3, 5, 14, 30⟩)]).date
      = Cell.str (formatDMY ⟨2024, 3, 5, 14, 30⟩) ∧
    (build_context_from_row pd0 []).date
      = Cell.str (pyStrOrEmpty (rowGetD [] "Date" (Cell.str ""))) ∧
    (build_context_from_row pd0 []).date = Cell.str "" :=
  ⟨(c5_date_format pd0 [("Date_parsed", Cell.date ⟨2024, 3, 5, 14, 30⟩)]).1
     ⟨2024, 3, 5, 14, 30⟩ (by decide),
   (c5_date_format pd0 []).2.2.1 (Or.inl rfl),
   (c5_date_format pd0 []).2.2.2 rfl rfl⟩

/-- C6 counterexample: a null (NaN) `Date` with no parsed date makes the
context's `date` field the string `"nan"`, not the empty string. -/
theorem c6_counterexample :
    (build_context_from_row pd0 [("Date", Cell.nan)]).date = Cell.str "nan" ∧
    Cell.str "nan" ≠ Cell.str "" := by
  decide

/-- C6 (amended): the context builder is total — every recognized field is
present — and a field whose source column is missing or null is the empty
string, except the `date` field: it is empty when the `Date` column and the
parsed date are both absent, but a null `Date` with no valid parsed date
yields the string rendering `"nan"` of the null value. -/
theorem c6_context_amended (parseDT : DTParser) (row : Row) :
    (∀ f ∈ recognizedFields, (ctxGet (build_context_from_row parseDT row) f).isSome = true) ∧
    (missingOrNull row "Site Name" →
       (build_context_from_row parseDT row).zone = Cell.str "" ∧
       (build_context_from_row parseDT row).unit_code = Cell.str "" ∧
       (build_context_from_row parseDT row).site_name = Cell.str "") ∧
    (rowGet row "Date" = none → missingOrNull row "Date_parsed" →
       (build_context_from_row parseDT row).date = Cell.str "") ∧
    (rowGet row "Date" = some Cell.nan → missingOrNull row "Date_parsed" →
       (build_context_from_row parseDT row).date = Cell.str "nan") ∧
    (missingOrNull row "Time" →
       (build_context_from_row parseDT row).time = Cell.str "") ∧
    (missingOrNull row "Documentation Check [Attendance Register]" →
       (build_context_from_row parseDT row).attendance_register = Cell.str "") ∧
    (missingOrNull row "Documentation Check [Handling / Taking Over Register]" →
       (build_context_from_row parseDT row).handling_register = Cell.str "") ∧
    (missingOrNull row "Documentation Check [Visitor Log Register]" →
       (build_context_from_row parseDT row).material_register = Cell.str "") ∧
    (missingOrNull row "Performance Check [Grooming]" →
       (build_context_from_row parseDT row).grooming = Cell.str "") ∧
    (missingOrNull row "Performance Check [Alertness]" →
       (build_context_from_row parseDT row).alertness = Cell.str "") ∧
    (missingOrNull row "Performance Check [Post Discipline]" →
       (build_context_from_row parseDT row).post_discipline = Cell.str "") ∧
    (missingOrNull row "Performance Check [Overall Rating]" →
       (build_context_from_row parseDT row).overall_rating = Cell.str "") ∧
    (missingOrNull row "Observation" →
       (build_context_from_row parseDT row).observation = Cell.str "") ∧
    (missingOrNull row "Inspected By" →
       (build_context_from_row parseDT row).inspected_by = Cell.str "") := by
  refine ⟨?_, ?_, ?_, ?_, ?_, ?_, ?_, ?_, ?_, ?_, ?_, ?_, ?_, ?_⟩
  · intro f hf
    fin_cases hf <;> rfl
  · rintro (h | h)
    · have hD : rowGetD row "Site Name" (Cell.str "") = Cell.str "" := by simp [rowGetD, h]
      refine ⟨?_, ?_, ?_⟩ <;> simp only [build_context_from_row, hD] <;> decide
    · have hD : rowGetD row "Site Name" (Cell.str "") = Cell.nan := by simp [rowGetD, h]
      refine ⟨?_, ?_, ?_⟩ <;> simp only [build_context_from_row, hD] <;> decide
  · intro h1 h2
    rcases h2 with h2 | h2 <;>
      simp [build_context_from_row, formattedDate, h2, rowGetD, h1, normCell,
        pyStrOrEmpty, cellTruthy, pyStr]
  · intro h1 h2
    rcases h2 with h2 | h2 <;>
      simp [build_context_from_row, formattedDate, h2, rowGetD, h1, normCell,
        pyStrOrEmpty, cellTruthy, pyStr]
  · rintro (h | h) <;> simp [build_context_from_row, rowGetD, h, normCell]
  · rintro (h | h) <;> simp [build_context_from_row, rowGetD, h, normCell]
  · rintro (h | h) <;> simp [build_context_from_row, rowGetD, h, normCell]
  · rintro (h | h) <;> simp [build_context_from_row, rowGetD, h, normCell]
  · rintro (h | h) <;> simp [build_context_from_row, rowGetD, h, normCell]
  · rintro (h | h) <;> simp [build_context_from_row, rowGetD, h, normCell]
  · rintro (h | h) <;> simp [build_context_from_row, rowGetD, h, normCell]
  · rintro (h | h) <;> simp [build_context_from_row, rowGetD, h, normCell]
  · rintro (h | h) <;> simp [build_context_from_row, rowGetD, h, normCell]
  · rintro (h | h) <;> simp [build_context_from_row, rowGetD, h, normCell]

/-- C6 witness: the amended context facts at concrete rows. -/
theorem c6_context_amended_witness :
    (ctxGet (build_context_from_row pd0 []) "observation").isSome = true ∧
    ((build_context_from_row pd0 []).zone = Cell.str "" ∧
     (build_context_from_row pd0 []).unit_code = Cell.str "" ∧
     (build_context_from_row pd0 []).site_name = Cell.str "") ∧
    (build_context_from_row pd0 []).date = Cell.str "" ∧
    (build_context_from_row pd0 [("Date", Cell.nan)]).date = Cell.str "nan" ∧
    (build_context_from_row pd0 []).time = Cell.str "" ∧
    (build_context_from_row pd0 []).observation = Cell.str "" :=
  ⟨(c6_context_amended pd0 []).1 "observation" (by decide),
   (c6_context_amended pd0 []).2.1 (Or.inl rfl),
   (c6_context_amended pd0 []).2.2.1 rfl (Or.inl rfl),
   (c6_context_amended pd0 [("Date", Cell.nan)]).2.2.2.1 (by decide) (Or.inl (by decide)),
   (c6_context_amended pd0 []).2.2.2.2.1 (Or.inl rfl),
   (c6_context_amended pd0 []).2.2.2.2.2.2.2.2.2.2.2.2.1 (Or.inl rfl)⟩

/-- C2: with a template available, rendering a row always succeeds; the
embedded image list is never longer than the row's list of image links and
holds only bytes that were successfully downloaded from one of those links
and recognized as an image. -/
theorem c2_render_images (fetch : Fetcher) (recognize : Recognizer) (parseDT : DTParser)
    (row : Row) (tb : Option (List Nat)) (tp : Option String) (fexists : String → Bool)
    (h : tbTruthy tb = true ∨ ∃ p, tp = some p ∧ p ≠ "" ∧ fexists p = true) :
    ∃ doc : RenderedDoc,
      render_docx_row fetch recognize parseDT row tb tp fexists = Except.ok doc ∧
      doc.images.length ≤ (linksOf row).length ∧
      ∀ b ∈ doc.images, recognize b = true ∧
        ∃ url, url ∈ linksOf row ∧ download_drive_image fetch url = some b := by
  have hlen : (inlineImagesOf fetch recognize row).length ≤ (linksOf row).length :=
    List.length_filterMap_le _ _
  have hmem : ∀ b ∈ inlineImagesOf fetch recognize row, recognize b = true ∧
      ∃ url, url ∈ linksOf row ∧ download_drive_image fetch url = some b := by
    intro b hb
    unfold inlineImagesOf at hb
    rw [List.mem_filterMap] at hb
    obtain ⟨url, hurl, heq⟩ := hb
    rcases hd : download_drive_image fetch url with _ | bb
    · simp [hd] at heq
    · simp only [hd] at heq
      by_cases hrec : recognize bb = true
      · rw [if_pos hrec] at heq
        injection heq with heq2
        subst heq2
        exact ⟨hrec, url, hurl, hd⟩
      · rw [if_neg hrec] at heq
        cases heq
  by_cases htb : tbTruthy tb = true
  · refine ⟨⟨TemplateSrc.fromBytes (tb.getD []), build_context_from_row parseDT row,
      inlineImagesOf fetch recognize row⟩, ?_, hlen, hmem⟩
    simp [render_docx_row, htb]
  · rcases h with h | ⟨p, hp, hpne, hpex⟩
    · exact absurd h htb
    · refine ⟨⟨TemplateSrc.fromPath p, build_context_from_row parseDT row,
        inlineImagesOf fetch recognize row⟩, ?_, hlen, hmem⟩
      simp [render_docx_row, htb, hp, hpne, hpex]

/-- C2 witness: rendering a concrete row whose single image link cannot be
downloaded still succeeds, with the image-list facts instantiated. -/
theorem c2_render_images_witness :
    ∃ doc : RenderedDoc,
      render_docx_row fetch0 rec0 pd0 c2row (some [1]) none fx0 = Except.ok doc ∧
      doc.images.length ≤ (linksOf c2row).length ∧
      ∀ b ∈ doc.images, rec0 b = true ∧
        ∃ url, url ∈ linksOf c2row ∧ download_drive_image fetch0 url = some b :=
  c2_render_images fetch0 rec0 pd0 c2row (some [1]) none fx0 (Or.inl (by decide))

/-- C10: every preview data URI carries the bytes downloaded from one of the
row's links with a MIME label computed from that link's URL extension alone —
`jpg`/`jpeg` to `image/jpeg`, `png` to `image/png`, anything else defaulting
to `image/jpeg` — never from the response's content type. -/
theorem c10_preview_mime (fetch : Fetcher) (row : Row) :
    (∀ u ∈ get_image_data_uris_for_row fetch row,
       ∃ url, url ∈ linksOf row ∧ download_drive_image fetch url = some u.payload ∧
         u.mime = mimeFor url) ∧
    (∀ url : String, extOf url = "jpg" ∨ extOf url = "jpeg" →
       mimeFor url = "image/jpeg") ∧
    (∀ url : String, extOf url = "png" → mimeFor url = "image/png") ∧
    (∀ url : String, extOf url ≠ "jpg" → extOf url ≠ "jpeg" → extOf url ≠ "png" →
       mimeFor url = "image/jpeg") := by
  refine ⟨?_, ?_, ?_, ?_⟩
  · intro u hu
    unfold get_image_data_uris_for_row at hu
    rw [List.mem_filterMap] at hu
    obtain ⟨url, hurl, heq⟩ := hu
    rcases hd : download_drive_image fetch url with _ | b
    · simp [hd] at heq
    · simp only [hd, Option.map_some'] at heq
      injection heq with heq2
      subst heq2
      exact ⟨url, hurl, hd, rfl⟩
  · intro url h
    rcases h with h | h <;> simp [mimeFor, h]
  · intro url h
    simp [mimeFor, h]
  · intro url h1 h2 h3
    simp [mimeFor, h1, h2, h3]

/-- C10 witness: a valid PNG served from an extension-less link is labelled
`image/jpeg`, and the extension rules at concrete URLs. -/
theorem c10_preview_mime_witness :
    (∃ url, url ∈ linksOf c10row ∧
       download_drive_image fetch1 url = some (DataUri.mk "image/jpeg" [9, 9]).payload ∧
       (DataUri.mk "image/jpeg" [9, 9]).mime = mimeFor url) ∧
    mimeFor "photo.jpg" = "image/jpeg" ∧
    mimeFor "photo.png" = "image/png" ∧
    mimeFor "https://host/file?id=abc123" = "image/jpeg" :=
  ⟨(c10_preview_mime fetch1 c10row).1 (DataUri.mk "image/jpeg" [9, 9]) (by decide),
   (c10_preview_mime fetch1 c10row).2.1 "photo.jpg" (Or.inl (by decide)),
   (c10_preview_mime fetch1 c10row).2.2.1 "photo.png" (by decide),
   (c10_preview_mime fetch1 c10row).2.2.2 "https://host/file?id=abc123"
     (by decide) (by decide) (by decide)⟩

/-- The clamp never exceeds the last valid index. -/
theorem clampIdx_le (idx : Int) (total : Nat) (h : 0 < total) :
    clampIdx idx total ≤ total - 1 := by
  unfold clampIdx clampLow
  split_ifs <;> omega

/-- A negative requested index clamps to 0. -/
theorem clampIdx_neg (idx : Int) (total : Nat) (h : idx < 0) :
    clampIdx idx total = 0 := by
  unfold clampIdx clampLow
  split_ifs <;> omega

/-- A requested index beyond the last row clamps to the last row. -/
theorem clampIdx_over (idx : Int) (total : Nat) (h : (total : Int) - 1 < idx) :
    clampIdx idx total = total - 1 := by
  unfold clampIdx clampLow
  split_ifs <;> omega

/-- An in-range requested index is served unchanged. -/
theorem clampIdx_in (idx : Int) (total : Nat) (h1 : 0 ≤ idx)
    (h2 : idx ≤ (total : Int) - 1) : (clampIdx idx total : Int) = idx := by
  unfold clampIdx clampLow
  split_ifs <;> omega

/-- C8: on an empty date-filtered row set the preview surfaces the no-records
condition; on a non-empty set it serves the page at the requested index
clamped into the valid range — negatives to 0, overshoots to the last row,
in-range indices unchanged. -/
theorem c8_preview_clamp (parseDT : DTParser) (fetch : Fetcher) (rows : List Row)
    (target : Date) (idx : Int) :
    (filter_by_date parseDT rows target = [] →
       preview_route parseDT fetch rows target idx = PreviewOutcome.noRecords) ∧
    (filter_by_date parseDT rows target ≠ [] →
       ∃ ctx uris hp hn,
         preview_route parseDT fetch rows target idx
           = PreviewOutcome.page (clampIdx idx (filter_by_date parseDT rows target).length)
               (filter_by_date parseDT rows target).length ctx uris hp hn ∧
         clampIdx idx (filter_by_date parseDT rows target).length
           ≤ (filter_by_date parseDT rows target).length - 1 ∧
         (idx < 0 → clampIdx idx (filter_by_date parseDT rows target).length = 0) ∧
         (((filter_by_date parseDT rows target).length : Int) - 1 < idx →
           clampIdx idx (filter_by_date parseDT rows target).length
             = (filter_by_date parseDT rows target).length - 1) ∧
         (0 ≤ idx → idx ≤ ((filter_by_date parseDT rows target).length : Int) - 1 →
           (clampIdx idx (filter_by_date parseDT rows target).length : Int) = idx)) := by
  constructor
  · intro h
    simp [preview_route, h]
  · intro h
    have hne : (filter_by_date parseDT rows target).isEmpty = false := by
      rcases hfr : filter_by_date parseDT rows target with _ | ⟨a, l⟩
      · exact absurd hfr h
      · rfl
    have hpos : 0 < (filter_by_date parseDT rows target).length :=
      List.length_pos.mpr h
    have hroute : preview_route parseDT fetch rows target idx
        = PreviewOutcome.page (clampIdx idx (filter_by_date parseDT rows target).length)
            (filter_by_date parseDT rows target).length
            (build_context_from_row parseDT
              ((filter_by_date parseDT rows target).getD
                (clampIdx idx (filter_by_date parseDT rows target).length) []))
            (get_image_data_uris_for_row fetch
              ((filter_by_date parseDT rows target).getD
                (clampIdx idx (filter_by_date parseDT rows target).length) []))
            (decide (0 < clampIdx idx (filter_by_date parseDT rows target).length))
            (decide (clampIdx idx (filter_by_date parseDT rows target).length
              < (filter_by_date parseDT rows target).length - 1)) := by
      simp only [preview_route, hne, Bool.false_eq_true, if_false]
    exact ⟨_, _, _, _, hroute, clampIdx_le idx _ hpos, fun hlt => clampIdx_neg idx _ hlt,
      fun hgt => clampIdx_over idx _ hgt, fun ha hb => clampIdx_in idx _ ha hb⟩

/-- C8 witness: a one-row selection with requested index 5 serves row 0. -/
theorem c8_preview_clamp_witness :
    ∃ ctx uris hp hn,
      preview_route pdHit fetch0 rowsOne ⟨2024, 3, 5⟩ 5
        = PreviewOutcome.page (clampIdx 5 (filter_by_date pdHit rowsOne ⟨2024, 3, 5⟩).length)
            (filter_by_date pdHit rowsOne ⟨2024, 3, 5⟩).length ctx uris hp hn ∧
      clampIdx 5 (filter_by_date pdHit rowsOne ⟨2024, 3, 5⟩).length
        ≤ (filter_by_date pdHit rowsOne ⟨2024, 3, 5⟩).length - 1 ∧
      ((5 : Int) < 0 → clampIdx 5 (filter_by_date pdHit rowsOne ⟨2024, 3, 5⟩).length = 0) ∧
      (((filter_by_date pdHit rowsOne ⟨2024, 3, 5⟩).length : Int) - 1 < 5 →
        clampIdx 5 (filter_by_date pdHit rowsOne ⟨2024, 3, 5⟩).length
          = (filter_by_date pdHit rowsOne ⟨2024, 3, 5⟩).length - 1) ∧
      ((0 : Int) ≤ 5 → (5 : Int) ≤ ((filter_by_date pdHit rowsOne ⟨2024, 3, 5⟩).length : Int) - 1 →
        (clampIdx 5 (filter_by_date pdHit rowsOne ⟨2024, 3, 5⟩).length : Int) = 5) :=
  (c8_preview_clamp pdHit fetch0 rowsOne ⟨2024, 3, 5⟩ 5).2 (by decide)

/-- C1: with an uploaded template, the download batch succeeds and writes one
entry per row named `<date>_<site-slug>.docx`; concretely, two rows with
distinct site names leave exactly two surviving entries, while two rows with
the same site name leave exactly one surviving entry whose content is the
later row's document. -/
theorem c1_zip_naming (fetch : Fetcher) (recognize : Recognizer) (parseDT : DTParser)
    (tb : Option (List Nat)) (tp : Option String) (fexists : String → Bool)
    (rows : List Row) (target : Date) (h : tbTruthy tb = true) :
    (∃ entries, zip_entries fetch recognize parseDT tb tp fexists rows target
        = Except.ok entries ∧
      entries.map Prod.fst = rows.map (zipName target) ∧
      entries.length = rows.length) ∧
    zipNamesOf (zip_entries fetch0 rec0 pd0 (some [1]) none fx0 [c1rowA, c1rowB] c1date)
      = ["2024-03-05_Alpha_One.docx", "2024-03-05_Beta.docx"] ∧
    zipNamesOf (zip_entries fetch0 rec0 pd0 (some [1]) none fx0 [c1rowA, c1rowA2] c1date)
      = ["2024-03-05_Alpha_One.docx"] ∧
    (zipReadOf (zip_entries fetch0 rec0 pd0 (some [1]) none fx0 [c1rowA, c1rowA2] c1date)
        "2024-03-05_Alpha_One.docx").map (fun d => d.ctx.observation)
      = some (Cell.str "B") := by
  have render_ok : ∀ r : Row, render_docx_row fetch recognize parseDT r tb tp fexists
      = Except.ok ⟨TemplateSrc.fromBytes (tb.getD []), build_context_from_row parseDT r,
          inlineImagesOf fetch recognize r⟩ := by
    intro r
    simp [render_docx_row, h]
  have main : ∀ rs : List Row,
      ∃ entries, zip_entries fetch recognize parseDT tb tp fexists rs target
          = Except.ok entries ∧
        entries.map Prod.fst = rs.map (zipName target) ∧
        entries.length = rs.length := by
    intro rs
    induction rs with
    | nil => exact ⟨[], rfl, rfl, rfl⟩
    | cons r rest ih =>
      obtain ⟨es, he, hn, hl⟩ := ih
      refine ⟨(zipName target r,
        ⟨TemplateSrc.fromBytes (tb.getD []), build_context_from_row parseDT r,
          inlineImagesOf fetch recognize r⟩) :: es, ?_, ?_, ?_⟩
      · unfold zip_entries
        rw [render_ok r, he]
      · simp [hn]
      · simp [hl]
  exact ⟨main rows, by decide, by decide, by decide⟩

/-- C1 witness: the naming facts instantiated at a concrete one-row batch. -/
theorem c1_zip_naming_witness :
    ∃ entries, zip_entries fetch0 rec0 pd0 (some [1]) none fx0 [c1rowA] c1date
        = Except.ok entries ∧
      entries.map Prod.fst = [c1rowA].map (zipName c1date) ∧
      entries.length = ([c1rowA] : List Row).length :=
  (c1_zip_naming fetch0 rec0 pd0 (some [1]) none fx0 [c1rowA] c1date (by decide)).1

/-- C9: with no uploaded template and no default template file, a download
request over a non-empty date selection reports the template-missing failure
and yields no archive, while the preview route still serves a page under the
same conditions. -/
theorem c9_template_missing (fetch : Fetcher) (recognize : Recognizer)
    (parseDT : DTParser) (fexists : String → Bool) (rows : List Row) (target : Date)
    (h1 : fexists "template.docx" = false)
    (h2 : filter_by_date parseDT rows target ≠ []) :
    index_download fetch recognize parseDT fexists none rows target
      = DownloadOutcome.templateMissing ∧
    (∀ nm es, index_download fetch recognize parseDT fexists none rows target
        ≠ DownloadOutcome.archive nm es) ∧
    (∀ idx : Int, ∃ i t ctx uris hp hn,
       preview_route parseDT fetch rows target idx
         = PreviewOutcome.page i t ctx uris hp hn) := by
  have hne : (filter_by_date parseDT rows target).isEmpty = false := by
    rcases hfr : filter_by_date parseDT rows target with _ | ⟨a, l⟩
    · exact absurd hfr h2
    · rfl
  have hmain : index_download fetch recognize parseDT fexists none rows target
      = DownloadOutcome.templateMissing := by
    simp [index_download, hne, h1, tbTruthy]
  refine ⟨hmain, ?_, ?_⟩
  · intro nm es
    rw [hmain]
    intro hcon
    cases hcon
  · intro idx
    have hroute : preview_route parseDT fetch rows target idx
        = PreviewOutcome.page (clampIdx idx (filter_by_date parseDT rows target).length)
            (filter_by_date parseDT rows target).length
            (build_context_from_row parseDT
              ((filter_by_date parseDT rows target).getD
                (clampIdx idx (filter_by_date parseDT rows target).length) []))
            (get_image_data_uris_for_row fetch
              ((filter_by_date parseDT rows target).getD
                (clampIdx idx (filter_by_date parseDT rows target).length) []))
            (decide (0 < clampIdx idx (filter_by_date parseDT rows target).length))
            (decide (clampIdx idx (filter_by_date parseDT rows target).length
              < (filter_by_date parseDT rows target).length - 1)) := by
      simp only [preview_route, hne, Bool.false_eq_true, if_false]
    exact ⟨_, _, _, _, _, _, hroute⟩

/-- C9 witness: the template-missing outcome at a concrete request. -/
theorem c9_template_missing_witness :
    index_download fetch0 rec0 pdHit fx0 none rowsOne ⟨2024, 3, 5⟩
      = DownloadOutcome.templateMissing :=
  (c9_template_missing fetch0 rec0 pdHit fx0 rowsOne ⟨2024, 3, 5⟩ rfl (by decide)).1
